import Mathlib

/-!
Shallow embedding of the GameWiki (Dim Lantern) core: the 3-phase workflow
state machine (`docs/js/workflow.js`), the id generator and name lookups of
the storage layer (`storage.js`), and the entity merge engine
(`extractAndSaveFromSession` in the app module), together with theorems
checking the specification's claims against these definitions.

JavaScript strings are modelled as Lean `String`/`List Char`;
`String.prototype.toLowerCase`/`trim`/`split(',')`/`includes`/`substr` are
modelled character-wise for the ASCII range the repository manipulates.
JavaScript numbers appearing here are integers (timestamps, indices,
counts) and are modelled as `Nat`; the single fractional computation
(`Math.round((completed / 3) * 100)`) is modelled as exact rational
rounding, which agrees with the double-precision computation on the
relevant arguments `0 ≤ completed ≤ 3`.
-/

namespace GameWiki

/-- Model of `String.prototype.toLowerCase` on one character, for the ASCII
range (code points 65-90 map to 97-122, everything else is unchanged). -/
def jsCharToLower (c : Char) : Char :=
  if 65 ≤ c.toNat ∧ c.toNat ≤ 90 then Char.ofNat (c.toNat + 32) else c

/-- Model of `String.prototype.toLowerCase` (ASCII range). -/
def toLowerCase (s : String) : String :=
  ⟨s.data.map jsCharToLower⟩

/-- Whitespace recognised by the model of `String.prototype.trim`
(space, tab, line feed, carriage return). -/
def isWsChar (c : Char) : Bool :=
  c.toNat = 32 || c.toNat = 9 || c.toNat = 10 || c.toNat = 13

/-- Drop leading and trailing whitespace from a character list. -/
def trimChars (l : List Char) : List Char :=
  ((l.dropWhile isWsChar).reverse.dropWhile isWsChar).reverse

/-- Model of `String.prototype.trim`. -/
def jsTrim (s : String) : String :=
  ⟨trimChars s.data⟩

/-- Model of `String.prototype.split(',')` on the character list:
splits at every comma, keeping empty pieces (`''.split(',')` is `['']`). -/
def splitOnComma : List Char → List (List Char)
  | [] => [[]]
  | c :: rest =>
    if c = ',' then [] :: splitOnComma rest
    else
      match splitOnComma rest with
      | [] => [[c]]
      | h :: t => (c :: h) :: t

/-- Substring test on character lists (model of
`String.prototype.includes`): the needle occurs contiguously in the hay. -/
def containsChars (needle : List Char) : List Char → Bool
  | [] => needle.isEmpty
  | c :: rest => needle.isPrefixOf (c :: rest) || containsChars needle rest

/-- Model of `hay.includes(needle)` on strings. -/
def strContains (hay needle : String) : Bool :=
  containsChars needle.data hay.data

/-- Decimal digit character for `n < 10` (code point `48 + n`). -/
def digitChar (n : Nat) : Char :=
  Char.ofNat (48 + n)

/-- Fuel-driven decimal printer: `natToCharsAux fuel n` is the decimal
digit list of `n` provided `fuel` is positive (one unit of fuel is spent
per recursive step, and `n + 1` units always suffice). -/
def natToCharsAux : Nat → Nat → List Char
  | 0, _ => []
  | fuel + 1, n =>
    if n < 10 then [digitChar n]
    else natToCharsAux fuel (n / 10) ++ [digitChar (n % 10)]

/-- Model of the decimal string interpolation of a JavaScript integer,
as used for `Date.now()` in the id template literal. -/
def natToChars (n : Nat) : List Char :=
  natToCharsAux (n + 1) n

/-- Base-36 digit character: `0`-`9` then `a`-`z`
(code point `48 + d` for `d < 10`, else `87 + d`). -/
def base36Char (d : Fin 36) : Char :=
  if d.val < 10 then Char.ofNat (48 + d.val) else Char.ofNat (87 + d.val)

/-- Model of `Math.random().toString(36)`: the random draw from `[0, 1)`
is represented by the list of base-36 fractional digits that JavaScript
prints for it. The value 0 prints as `"0"`; every other value prints as
`"0."` followed by its (non-empty) fractional digit list. -/
def randToString36 (digits : List (Fin 36)) : String :=
  if digits.isEmpty then "0" else "0." ++ ⟨digits.map base36Char⟩

/-- Model of `String.prototype.substr(start, len)` (ASCII inputs). -/
def jsSubstr (s : String) (start len : Nat) : String :=
  ⟨(s.data.drop start).take len⟩

/-- Embedding of `generateId` from `storage.js`:
`` `${Date.now()}-${Math.random().toString(36).substr(2, 9)}` ``.
`now` is the value of `Date.now()` and `digits` represents the random
draw as in `randToString36`. -/
def generateId (now : Nat) (digits : List (Fin 36)) : String :=
  (⟨natToChars now⟩ : String) ++ "-" ++ jsSubstr (randToString36 digits) 2 9

/-- Decimal digit predicate (`0`-`9`), by code point. -/
def isDigitChar (c : Char) : Bool :=
  48 ≤ c.toNat && c.toNat ≤ 57

/-- Character class `[a-z0-9]`, by code point. -/
def isLower36 (c : Char) : Bool :=
  isDigitChar c || (97 ≤ c.toNat && c.toNat ≤ 122)

/-- Decidable check of the documented id format `/^\d+-[a-z0-9]+$/`:
one or more decimal digits, a hyphen, then one or more characters from
`[a-z0-9]`. -/
def matchesIdFormat (s : String) : Bool :=
  let ds := s.data.takeWhile isDigitChar
  let rest := s.data.drop ds.length
  !ds.isEmpty &&
    match rest with
    | '-' :: suffix => !suffix.isEmpty && suffix.all isLower36
    | _ => false

/-- Session reference `{id, title, date}` attached to entities as
provenance. -/
structure SessionRef where
  id : String
  title : String
  date : String
deriving DecidableEq

/-- Location entity record as stored in the `locations` collection. -/
structure Location where
  id : String
  name : String
  type : String
  region : String
  overview : String
  npcs : String
  connections : List String
  sessions : List SessionRef
  rawContent : String
deriving DecidableEq

/-- Plot-thread entity record as stored in the `plotThreads` collection. -/
structure PlotThread where
  id : String
  name : String
  status : String
  priority : String
  summary : String
  hooks : String
  relatedLocations : List String
  sessions : List SessionRef
  rawContent : String
deriving DecidableEq

/-- One entry of the fixed `PHASES` table in `workflow.js`. -/
structure PhaseDef where
  number : Nat
  name : String
  ai : String
  description : String
deriving DecidableEq

/-- The fixed 3-entry phase table `PHASES` from `workflow.js`. -/
def PHASES : List PhaseDef :=
  [ { number := 1, name := "Extract", ai := "Claude Sonnet 4",
      description := "Extract locations and plot threads from transcript" },
    { number := 2, name := "Summarize", ai := "Claude Sonnet 4",
      description := "Generate wiki-style summaries for locations" },
    { number := 3, name := "Refine", ai := "Gemini 2.5 Pro",
      description := "Validate and refine summaries for accuracy" } ]

/-- Per-session phase record, as built by `createSession`. -/
structure PhaseRecord where
  number : Nat
  name : String
  ai : String
  description : String
  prompt : String
  response : String
  completed : Bool
deriving DecidableEq

/-- Processing-session object, as built by `createSession`. `tags` is
optional because sessions loaded from storage may predate the field
(`filterSessions` and `getAllTags` access it with `?.`); `createSession`
always sets it. -/
structure Session where
  id : String
  title : String
  date : String
  transcript : String
  tags : Option (List String)
  created : Nat
  modified : Nat
  currentPhase : Nat
  phases : List PhaseRecord
  extractedLocations : List Location
  extractedPlotThreads : List PlotThread
deriving DecidableEq

/-- Embedding of `createSession(title, date, transcript, tags)`.
The ambient effects are passed explicitly: `genId` is the result of
`generateId()` and `now` the value of `Date.now()`. -/
def createSession (genId : String) (now : Nat)
    (title date transcript : String) (tags : List String) : Session :=
  { id := genId
    title := title
    date := date
    transcript := transcript
    tags := some tags
    created := now
    modified := now
    currentPhase := 1
    phases := PHASES.map (fun phase =>
      { number := phase.number
        name := phase.name
        ai := phase.ai
        description := phase.description
        prompt := ""
        response := ""
        completed := false })
    extractedLocations := []
    extractedPlotThreads := [] }

/-- Embedding of `parseTags(tagString)`: `none` stands for
`null`/`undefined` input (falsy, like the empty string). -/
def parseTags : Option String → List String
  | none => []
  | some s =>
    if s = "" then []
    else
      ((splitOnComma s.data).map
        (fun t => toLowerCase (jsTrim ⟨t⟩))).filter (fun t => t.length > 0)

/-- Embedding of `filterSessions(sessions, query, filterTags)`. -/
def filterSessions (sessions : List Session) (query : String)
    (filterTags : List String) : List Session :=
  sessions.filter (fun session =>
    let matchesQuery : Bool :=
      query = "" ||
        strContains (toLowerCase session.title) (toLowerCase query) ||
        strContains session.date query
    let matchesTags : Bool :=
      filterTags.length = 0 ||
        filterTags.all (fun tag =>
          match session.tags with
          | some ts => ts.contains tag
          | none => false)
    matchesQuery && matchesTags)

/-- Response text of phase `i` (0-based), used by the phase-2/3 prompt
builders; out-of-range access would throw in JavaScript and is modelled
as the empty string (never reached on well-formed sessions). -/
def phaseResponse (s : Session) (i : Nat) : String :=
  ((s.phases.get? i).map (fun p => p.response)).getD ""

/-- Embedding of the `generatePhase1Prompt` template literal. -/
def generatePhase1Prompt (s : Session) : String :=
  "# Phase 1: Extract Locations and Plot Threads\n\nYou are a D&D 5E campaign analyst. Extract all significant LOCATIONS and PLOT THREADS from this session transcript.\n\n## Session: "
    ++ s.title
    ++ "\n## Date: "
    ++ s.date
    ++ "\n\n## TRANSCRIPT:\n"
    ++ s.transcript
    ++ "\n\n---\n\n## OUTPUT FORMAT (use exactly this structure):\n\n"
    ++ "### LOCATIONS"
    ++ "\nFor each location, provide:\n- **Name**: [Location name]\n- **Type**: [City/Town/Dungeon/Wilderness/Building/Region]\n- **Events**: [Bullet list of what happened here this session]\n- **NPCs Encountered**: [List of NPCs at this location]\n- **Connections**: [Other locations mentioned in relation to this one]\n\n"
    ++ "### PLOT THREADS"
    ++ "\nFor each plot thread, provide:\n- **Thread**: [Name of plot thread]\n- **Status**: [Active/Resolved/Dormant]\n- **Description**: [Brief description]\n- **Hooks**: [Unresolved hooks or questions]\n- **Related Locations**: [Locations tied to this thread]\n\nBe thorough. Include ALL locations mentioned, even briefly. Capture ALL unresolved plot elements."

/-- Embedding of the `generatePhase2Prompt` template literal
(`phase1Response` is `session.phases[0].response`). -/
def generatePhase2Prompt (s : Session) : String :=
  "# Phase 2: Generate Wiki Summaries\n\nBased on the extracted locations and plot threads, create wiki-style documentation.\n\n## Session: "
    ++ s.title
    ++ "\n## Date: "
    ++ s.date
    ++ "\n\n## PHASE 1 EXTRACTION:\n"
    ++ phaseResponse s 0
    ++ "\n\n---\n\n## OUTPUT FORMAT:\n\nFor each LOCATION, create a wiki page in this format:\n\n# [Location Name]\n\n**Type**: [Type] | **Region**: [Parent region if known]\n\n## Overview\n[2-3 sentence description of this location]\n\n## Session "
    ++ s.title
    ++ " Events\n- [Chronological bullet points of what happened here]\n\n## Notable NPCs\n- **[NPC Name]**: [Brief description and role]\n\n## Connections\n- [[Link to related location]]\n\n## Plot Threads\n- [[Link to related plot thread]]\n\n---\n\nFor each PLOT THREAD, create an entry:\n\n# [Plot Thread Name]\n\n**Status**: [Active/Resolved/Dormant] | **Priority**: [High/Medium/Low]\n\n## Summary\n[Description of this plot thread]\n\n## Unresolved Hooks\n- [List of open questions or hooks]\n\n## Related Locations\n- [[Location links]]\n\n## Session History\n- **"
    ++ s.date
    ++ "**: [What happened with this thread]"

/-- Embedding of the `generatePhase3Prompt` template literal
(`phase2Response` is `session.phases[1].response`). -/
def generatePhase3Prompt (s : Session) : String :=
  "# Phase 3: Validate and Refine Wiki Entries\n\nReview the generated wiki entries for accuracy, completeness, and Obsidian compatibility.\n\n## Session: "
    ++ s.title
    ++ "\n\n## GENERATED WIKI CONTENT:\n"
    ++ phaseResponse s 1
    ++ "\n\n---\n\n## YOUR TASK:\n\n1. **Accuracy Check**: Verify all facts match the original transcript\n2. **Completeness**: Ensure no locations or plot threads were missed\n3. **Obsidian Formatting**: Verify [[wiki links]] are consistent\n4. **Clarity**: Improve any unclear descriptions\n5. **Cross-References**: Ensure all connections are bidirectional\n\n## OUTPUT:\nProvide the FINAL, corrected wiki content ready for copy-paste into Obsidian.\nInclude any corrections or additions you made.\n\nIf everything looks good, output the content unchanged with a note: \"✓ Validated - No changes needed\""

/-- Embedding of `generatePrompt(session)`: dispatches on the `number`
field of `session.phases[session.currentPhase - 1]`; the out-of-range
case would throw in JavaScript and is modelled as `""`. -/
def generatePrompt (s : Session) : String :=
  match s.phases.get? (s.currentPhase - 1) with
  | none => ""
  | some phase =>
    if phase.number = 1 then generatePhase1Prompt s
    else if phase.number = 2 then generatePhase2Prompt s
    else if phase.number = 3 then generatePhase3Prompt s
    else ""

/-- Result record of `validatePhase`. -/
structure ValidationResult where
  valid : Bool
  error : Option String
deriving DecidableEq

/-- Embedding of `validatePhase(session)`; the out-of-range phase access
would throw in JavaScript and is modelled as an errorless failure
(never reached on well-formed sessions). -/
def validatePhase (s : Session) : ValidationResult :=
  match s.phases.get? (s.currentPhase - 1) with
  | none => { valid := false, error := none }
  | some phase =>
    if phase.response = "" ∨ jsTrim phase.response = "" then
      { valid := false, error := some "Please paste the AI response" }
    else if (jsTrim phase.response).length < 100 then
      { valid := false,
        error := some "Response seems too short. Please check the AI output." }
    else
      { valid := true, error := none }

/-- Replace the element at index `i` (0-based) by `f` of it; identity when
out of range (mirrors in-place mutation of `session.phases[i]`). -/
def modifyIdx (l : List PhaseRecord) (i : Nat)
    (f : PhaseRecord → PhaseRecord) : List PhaseRecord :=
  match l, i with
  | [], _ => []
  | p :: rest, 0 => f p :: rest
  | p :: rest, j + 1 => p :: modifyIdx rest j f

/-- Embedding of `advancePhase(session)`: marks the current phase
completed unconditionally, then increments `currentPhase` iff it is
below `PHASES.length`. -/
def advancePhase (s : Session) : Session :=
  { s with
    phases := modifyIdx s.phases (s.currentPhase - 1)
      (fun p => { p with completed := true })
    currentPhase :=
      if s.currentPhase < PHASES.length then s.currentPhase + 1
      else s.currentPhase }

/-- Embedding of `isSessionComplete(session)`. -/
def isSessionComplete (s : Session) : Bool :=
  s.phases.all (fun phase => phase.completed)

/-- Embedding of `getCurrentPhase(session)` (`none` models the
out-of-range access that would yield `undefined`). -/
def getCurrentPhase (s : Session) : Option PhaseRecord :=
  s.phases.get? (s.currentPhase - 1)

/-- Embedding of `updatePhaseResponse(session, response)`. -/
def updatePhaseResponse (s : Session) (response : String) : Session :=
  { s with
    phases := modifyIdx s.phases (s.currentPhase - 1)
      (fun p => { p with response := response }) }

/-- Rounding of the exact rational `num / den` to the nearest natural
number, halves up: `Math.round` on a non-negative value. -/
def rround (num den : Nat) : Nat :=
  (2 * num + den) / (2 * den)

/-- Embedding of `getProgress(session)`:
`Math.round((completedPhases / PHASES.length) * 100)`, modelled as exact
rational rounding (which agrees with the double computation for
`0 ≤ completedPhases ≤ 3`). -/
def getProgress (s : Session) : Nat :=
  let completedPhases := (s.phases.filter (fun p => p.completed)).length
  rround (completedPhases * 100) PHASES.length

/-- State-machine operations a caller can apply to a session
(`validate` is the read-only `validatePhase` call). -/
inductive Op where
  | update (response : String)
  | advance
  | validate
deriving DecidableEq

/-- Apply one operation to a session. -/
def applyOp (s : Session) : Op → Session
  | Op.update r => updatePhaseResponse s r
  | Op.advance => advancePhase s
  | Op.validate => s

/-- Run a sequence of operations from a starting session. -/
def exec (s : Session) (ops : List Op) : Session :=
  ops.foldl applyOp s

/-- Whether the phase at `currentPhase - 1` is already completed (used to
recognise the moment a phase is newly marked complete; the out-of-range
case is irrelevant and mapped to `true`, i.e. no event). -/
def currentCompleted (s : Session) : Bool :=
  ((s.phases.get? (s.currentPhase - 1)).map (fun p => p.completed)).getD true

/-- Instrumented run: records, for each operation that newly marks a phase
completed, whether `validatePhase` held at that exact moment. -/
def execEvents (s : Session) : List Op → List Bool
  | [] => []
  | op :: rest =>
    (match op with
     | Op.advance =>
       if currentCompleted s then [] else [(validatePhase s).valid]
     | _ => []) ++ execEvents (applyOp s op) rest

/-- Caller protocol documented for `advancePhase`: an operation sequence
is guarded when every `advance` is applied in a state where
`validatePhase` succeeds. -/
def guardedRun (s : Session) : List Op → Bool
  | [] => true
  | op :: rest =>
    (match op with
     | Op.advance => (validatePhase s).valid
     | _ => true) && guardedRun (applyOp s op) rest

/-- Model of the IndexedDB `put` used by `saveLocation`: insert-or-replace
keyed by `id` (the `modified` timestamp side effect is not modelled; no
claim depends on it). -/
def saveLocation (store : List Location) (loc : Location) : List Location :=
  if store.any (fun e => e.id = loc.id) then
    store.map (fun e => if e.id = loc.id then loc else e)
  else store ++ [loc]

/-- Model of the IndexedDB `put` used by `savePlotThread`. -/
def savePlotThread (store : List PlotThread) (t : PlotThread) :
    List PlotThread :=
  if store.any (fun e => e.id = t.id) then
    store.map (fun e => if e.id = t.id then t else e)
  else store ++ [t]

/-- Embedding of `findLocationByName(name)` from `storage.js`: first
stored location whose name matches case-insensitively. -/
def findLocationByName (store : List Location) (name : String) :
    Option Location :=
  store.find? (fun loc => toLowerCase loc.name = toLowerCase name)

/-- Embedding of `findPlotThreadByName(name)` from `storage.js`. -/
def findPlotThreadByName (store : List PlotThread) (name : String) :
    Option PlotThread :=
  store.find? (fun t => toLowerCase t.name = toLowerCase name)

/-- Result of one iteration of a merge loop in
`extractAndSaveFromSession`: the updated collection, whether a save call
was issued, and whether the entity counted as newly created. -/
structure MergeStep (α : Type) where
  store : List α
  persisted : Bool
  created : Bool
deriving DecidableEq

/-- Embedding of the per-location body of the merge loop in
`extractAndSaveFromSession` (`ref` is the `sessionRef` of the merging
session, so `ref.id` is `session.id`). -/
def mergeLocationStep (ref : SessionRef) (store : List Location)
    (loc : Location) : MergeStep Location :=
  match findLocationByName store loc.name with
  | some existing =>
    if existing.sessions.any (fun s => s.id = ref.id) then
      { store := store, persisted := false, created := false }
    else
      { store := saveLocation store
          { existing with
            sessions := existing.sessions ++ [ref]
            rawContent :=
              existing.rawContent ++ "\n\n---\n\n" ++ loc.rawContent }
        persisted := true
        created := false }
  | none =>
    { store := saveLocation store loc, persisted := true, created := true }

/-- Embedding of the per-thread body of the merge loop in
`extractAndSaveFromSession`; differs from the location case by the
latest-wins overwrite of `status`. -/
def mergePlotThreadStep (ref : SessionRef) (store : List PlotThread)
    (thread : PlotThread) : MergeStep PlotThread :=
  match findPlotThreadByName store thread.name with
  | some existing =>
    if existing.sessions.any (fun s => s.id = ref.id) then
      { store := store, persisted := false, created := false }
    else
      { store := savePlotThread store
          { existing with
            sessions := existing.sessions ++ [ref]
            status := thread.status
            rawContent :=
              existing.rawContent ++ "\n\n---\n\n" ++ thread.rawContent }
        persisted := true
        created := false }
  | none =>
    { store := savePlotThread store thread, persisted := true,
      created := true }

/-- The location merge loop of `extractAndSaveFromSession`: processes the
parsed locations in document order, returning the final collection and
the `savedLocations` count of newly created entities. -/
def mergeLocations (ref : SessionRef) (store : List Location)
    (locs : List Location) : List Location × Nat :=
  locs.foldl
    (fun acc loc =>
      let r := mergeLocationStep ref acc.1 loc
      (r.store, acc.2 + if r.created then 1 else 0))
    (store, 0)

/-- The plot-thread merge loop of `extractAndSaveFromSession`. -/
def mergePlotThreads (ref : SessionRef) (store : List PlotThread)
    (threads : List PlotThread) : List PlotThread × Nat :=
  threads.foldl
    (fun acc t =>
      let r := mergePlotThreadStep ref acc.1 t
      (r.store, acc.2 + if r.created then 1 else 0))
    (store, 0)

/-- C1: for an existing entity (Location or Plot Thread) found by the
case-insensitive name lookup whose sessions list already contains an
entry with the merging session's id, the merge-loop body performs no
mutation: the stored collection is returned unchanged (so sessions,
rawContent and, for plot threads, status are all untouched), nothing is
persisted, and nothing counts as created. -/
theorem c1_merge_same_session_is_noop
    (storeL : List Location) (storeT : List PlotThread) (ref : SessionRef)
    (loc : Location) (thr : PlotThread) (exL : Location) (exT : PlotThread)
    (hL : findLocationByName storeL loc.name = some exL)
    (hLs : exL.sessions.any (fun sr => sr.id = ref.id) = true)
    (hT : findPlotThreadByName storeT thr.name = some exT)
    (hTs : exT.sessions.any (fun sr => sr.id = ref.id) = true) :
    mergeLocationStep ref storeL loc =
      { store := storeL, persisted := false, created := false } ∧
    mergePlotThreadStep ref storeT thr =
      { store := storeT, persisted := false, created := false } := by
  constructor
  · unfold mergeLocationStep
    rw [hL]
    simp [hLs]
  · unfold mergePlotThreadStep
    rw [hT]
    simp [hTs]

/-- Witness for C1 at a concrete store, entity pair and session. -/
theorem c1_merge_same_session_is_noop_witness :
    mergeLocationStep ⟨"s1", "Session One", "2024-01-01"⟩
        [⟨"L1", "The Rusty Dragon", "Building", "Varisia", "", "", [],
          [⟨"s1", "Session One", "2024-01-01"⟩], "block one"⟩]
        ⟨"L9", "the rusty dragon", "", "", "", "", [],
          [⟨"s1", "Session One", "2024-01-01"⟩], "block two"⟩ =
      { store := [⟨"L1", "The Rusty Dragon", "Building", "Varisia", "", "",
          [], [⟨"s1", "Session One", "2024-01-01"⟩], "block one"⟩],
        persisted := false, created := false } ∧
    mergePlotThreadStep ⟨"s1", "Session One", "2024-01-01"⟩
        [⟨"P1", "Blood Moon Cult", "Active", "High", "sum", "hooks", [],
          [⟨"s1", "Session One", "2024-01-01"⟩], "tblock one"⟩]
        ⟨"P9", "blood moon cult", "Resolved", "Low", "", "", [],
          [⟨"s1", "Session One", "2024-01-01"⟩], "tblock two"⟩ =
      { store := [⟨"P1", "Blood Moon Cult", "Active", "High", "sum", "hooks",
          [], [⟨"s1", "Session One", "2024-01-01"⟩], "tblock one"⟩],
        persisted := false, created := false } :=
  c1_merge_same_session_is_noop
    [⟨"L1", "The Rusty Dragon", "Building", "Varisia", "", "", [],
      [⟨"s1", "Session One", "2024-01-01"⟩], "block one"⟩]
    [⟨"P1", "Blood Moon Cult", "Active", "High", "sum", "hooks", [],
      [⟨"s1", "Session One", "2024-01-01"⟩], "tblock one"⟩]
    ⟨"s1", "Session One", "2024-01-01"⟩
    ⟨"L9", "the rusty dragon", "", "", "", "", [],
      [⟨"s1", "Session One", "2024-01-01"⟩], "block two"⟩
    ⟨"P9", "blood moon cult", "Resolved", "Low", "", "", [],
      [⟨"s1", "Session One", "2024-01-01"⟩], "tblock two"⟩
    ⟨"L1", "The Rusty Dragon", "Building", "Varisia", "", "", [],
      [⟨"s1", "Session One", "2024-01-01"⟩], "block one"⟩
    ⟨"P1", "Blood Moon Cult", "Active", "High", "sum", "hooks", [],
      [⟨"s1", "Session One", "2024-01-01"⟩], "tblock one"⟩
    (by decide) (by decide) (by decide) (by decide)

/-- C2: merging a plot thread of the same (case-insensitive) name from a
second, different session overwrites `status` with the latest-encountered
value ("Resolved"), appends the second session reference after the first
(encounter order), and concatenates both raw blocks separated by the
block delimiter. -/
theorem c2_plotThread_status_latest_wins
    (store : List PlotThread) (tA tB : PlotThread) (refA refB : SessionRef)
    (hAbsent : findPlotThreadByName store tA.name = none)
    (hName : toLowerCase tB.name = toLowerCase tA.name)
    (hStA : tA.status = "Active") (hStB : tB.status = "Resolved")
    (hSess : tA.sessions = [refA])
    (hIds : refA.id ≠ refB.id)
    (hFresh : ∀ e ∈ store, e.id ≠ tA.id) :
    findPlotThreadByName
        (mergePlotThreadStep refB
          (mergePlotThreadStep refA store tA).store tB).store tB.name =
      some { tA with
              sessions := [refA, refB]
              status := "Resolved"
              rawContent := tA.rawContent ++ "\n\n---\n\n" ++ tB.rawContent }
    := by
  have hAnyFresh : store.any (fun e => e.id = tA.id) = false := by
    simp only [List.any_eq_false, decide_eq_true_eq]
    exact hFresh
  have step1 : (mergePlotThreadStep refA store tA).store = store ++ [tA] := by
    unfold mergePlotThreadStep
    rw [hAbsent]
    simp [savePlotThread, hAnyFresh]
  have hNoneB :
      store.find? (fun t => toLowerCase t.name = toLowerCase tB.name)
        = none := by
    simp only [hName]
    exact hAbsent
  have hFound : findPlotThreadByName (store ++ [tA]) tB.name = some tA := by
    unfold findPlotThreadByName
    rw [List.find?_append, hNoneB]
    simp [List.find?, hName]
  have hGuard : tA.sessions.any (fun s => s.id = refB.id) = false := by
    rw [hSess]
    simp [hIds]
  have hAny2 : (store ++ [tA]).any (fun e => e.id = tA.id) = true := by
    simp
  have hMapStore : ∀ upd : PlotThread,
      store.map (fun e => if e.id = tA.id then upd else e) = store := by
    intro upd
    conv_rhs => rw [← List.map_id store]
    exact List.map_congr_left (fun a ha => by simp [hFresh a ha])
  have step2 :
      (mergePlotThreadStep refB (store ++ [tA]) tB).store =
        store ++ [{ tA with
          sessions := [refA, refB]
          status := "Resolved"
          rawContent := tA.rawContent ++ "\n\n---\n\n" ++ tB.rawContent }] := by
    unfold mergePlotThreadStep
    rw [hFound]
    simp only [hGuard, Bool.false_eq_true, if_false]
    unfold savePlotThread
    simp [hSess, hStB, hMapStore]
  rw [step1, step2]
  unfold findPlotThreadByName
  rw [List.find?_append, hNoneB]
  simp [hName]

/-- Witness for C2: an empty store, a thread first merged from session A
with status "Active", then from session B with status "Resolved". -/
theorem c2_plotThread_status_latest_wins_witness :
    findPlotThreadByName
        (mergePlotThreadStep ⟨"sB", "Session B", "2024-02-01"⟩
          (mergePlotThreadStep ⟨"sA", "Session A", "2024-01-01"⟩ []
            ⟨"P1", "Blood Moon Cult", "Active", "High", "sum", "hk", [],
              [⟨"sA", "Session A", "2024-01-01"⟩], "blockA"⟩).store
          ⟨"P2", "blood moon cult", "Resolved", "High", "sum2", "hk2", [],
            [⟨"sB", "Session B", "2024-02-01"⟩], "blockB"⟩).store
        "blood moon cult" =
      some ⟨"P1", "Blood Moon Cult", "Resolved", "High", "sum", "hk", [],
        [⟨"sA", "Session A", "2024-01-01"⟩, ⟨"sB", "Session B", "2024-02-01"⟩],
        "blockA" ++ "\n\n---\n\n" ++ "blockB"⟩ :=
  c2_plotThread_status_latest_wins []
    ⟨"P1", "Blood Moon Cult", "Active", "High", "sum", "hk", [],
      [⟨"sA", "Session A", "2024-01-01"⟩], "blockA"⟩
    ⟨"P2", "blood moon cult", "Resolved", "High", "sum2", "hk2", [],
      [⟨"sB", "Session B", "2024-02-01"⟩], "blockB"⟩
    ⟨"sA", "Session A", "2024-01-01"⟩ ⟨"sB", "Session B", "2024-02-01"⟩
    (by decide) (by decide) (by decide) (by decide) (by decide) (by decide)
    (by decide)

/-- `advancePhase` changes `currentPhase` exactly when it is below 3. -/
theorem advancePhase_currentPhase (s : Session) :
    (advancePhase s).currentPhase =
      if s.currentPhase < 3 then s.currentPhase + 1 else s.currentPhase :=
  rfl

/-- Each operation preserves `1 ≤ currentPhase ≤ 3`. -/
theorem applyOp_currentPhase_bounds (s : Session) (op : Op)
    (h1 : 1 ≤ s.currentPhase) (h3 : s.currentPhase ≤ 3) :
    1 ≤ (applyOp s op).currentPhase ∧ (applyOp s op).currentPhase ≤ 3 := by
  cases op with
  | update r => exact ⟨h1, h3⟩
  | advance =>
    rw [show applyOp s Op.advance = advancePhase s from rfl,
      advancePhase_currentPhase]
    split <;> omega
  | validate => exact ⟨h1, h3⟩

/-- Bounds on `currentPhase` are preserved by any operation sequence. -/
theorem exec_currentPhase_bounds (ops : List Op) :
    ∀ s : Session, 1 ≤ s.currentPhase → s.currentPhase ≤ 3 →
      1 ≤ (exec s ops).currentPhase ∧ (exec s ops).currentPhase ≤ 3 := by
  induction ops with
  | nil => exact fun s h1 h3 => ⟨h1, h3⟩
  | cons op rest ih =>
    intro s h1 h3
    have h := applyOp_currentPhase_bounds s op h1 h3
    exact ih (applyOp s op) h.1 h.2

/-- C4: a freshly created session starts at phase index 1; under any
sequence of operations the index stays in [1, 3]; `advancePhase` never
decreases it, and increments it by one exactly when it is below 3,
leaving it unchanged once it equals 3. -/
theorem c4_currentPhase_invariants (genId : String) (now : Nat)
    (title date transcript : String) (tags : List String) (ops : List Op) :
    (createSession genId now title date transcript tags).currentPhase = 1 ∧
    1 ≤ (exec (createSession genId now title date transcript tags)
          ops).currentPhase ∧
    (exec (createSession genId now title date transcript tags)
          ops).currentPhase ≤ 3 ∧
    (∀ s : Session, s.currentPhase ≤ (advancePhase s).currentPhase) ∧
    (∀ s : Session, (advancePhase s).currentPhase =
      if s.currentPhase < 3 then s.currentPhase + 1 else s.currentPhase) := by
  have hcp : (createSession genId now title date transcript tags).currentPhase
      = 1 := rfl
  have hb := exec_currentPhase_bounds ops
    (createSession genId now title date transcript tags)
    (by rw [hcp]) (by rw [hcp]; omega)
  refine ⟨rfl, hb.1, hb.2, ?_, fun s => advancePhase_currentPhase s⟩
  intro s
  rw [advancePhase_currentPhase]
  split <;> omega

/-- In a guarded run, every recorded completion event carries a
successful validation. -/
theorem guardedRun_execEvents (ops : List Op) :
    ∀ s : Session, guardedRun s ops = true →
      ∀ b ∈ execEvents s ops, b = true := by
  induction ops with
  | nil =>
    intro s _ b hb
    simp [execEvents] at hb
  | cons op rest ih =>
    intro s hg b hb
    unfold guardedRun at hg
    rw [Bool.and_eq_true] at hg
    unfold execEvents at hb
    rcases List.mem_append.mp hb with h | h
    · cases op with
      | update r => simp at h
      | validate => simp at h
      | advance =>
        by_cases hc : currentCompleted s = true
        · simp [hc] at h
        · simp [hc] at h
          rw [h]
          exact hg.1
    · exact ih (applyOp s op) hg.2 b h

set_option maxRecDepth 4096 in
/-- C3 counterexample: from a fresh session, a bare `advancePhase` (no
prior `validatePhase` success) is a reachable operation sequence after
which phase 1 has `completed = true`, yet the recorded completion event
shows validation did not hold at the moment of marking (the response was
empty). -/
theorem c3_counterexample :
    (exec (createSession "s1" 0 "Title" "2024-01-01" "transcript" [])
        [Op.advance]).phases.map (fun p => p.completed) =
      [true, false, false] ∧
    execEvents (createSession "s1" 0 "Title" "2024-01-01" "transcript" [])
        [Op.advance] = [false] ∧
    (validatePhase
        (createSession "s1" 0 "Title" "2024-01-01" "transcript" [])).valid =
      false := by
  decide

/-- C3 (amended): along any operation sequence in which `advancePhase` is
only applied in states where `validatePhase` succeeds (the documented
caller protocol), every phase-completion event happens at a moment where
the current response is non-empty and passes validation. -/
theorem c3_completed_implies_validated_when_guarded
    (s : Session) (ops : List Op) (hg : guardedRun s ops = true) :
    (execEvents s ops).all (fun b => b) = true := by
  rw [List.all_eq_true]
  intro b hb
  exact guardedRun_execEvents ops s hg b hb

set_option maxRecDepth 8192 in
/-- Witness for C3 (amended): a guarded trace that updates the response
to a 120-character text and then advances. -/
theorem c3_completed_implies_validated_when_guarded_witness :
    guardedRun (createSession "s1" 0 "Title" "2024-01-01" "transcript" [])
      [Op.update (String.mk (List.replicate 120 'a')), Op.advance] = true ∧
    (execEvents (createSession "s1" 0 "Title" "2024-01-01" "transcript" [])
      [Op.update (String.mk (List.replicate 120 'a')), Op.advance]).all
        (fun b => b) = true :=
  ⟨by decide,
    c3_completed_implies_validated_when_guarded
      (createSession "s1" 0 "Title" "2024-01-01" "transcript" [])
      [Op.update (String.mk (List.replicate 120 'a')), Op.advance]
      (by decide)⟩

/-- C5 (amended): `validatePhase` fails with the missing-response error
when the current phase's response is empty or all-whitespace, fails with
the too-short error when the trimmed response has fewer than 100
characters, and succeeds in every other case (in particular for any
150-character response whose trimmed length is at least 100). The
function only reads the session, returning a result record. -/
theorem c5_validatePhase_cases (s : Session) (ph : PhaseRecord)
    (hget : s.phases.get? (s.currentPhase - 1) = some ph) :
    (jsTrim ph.response = "" →
      validatePhase s =
        { valid := false, error := some "Please paste the AI response" }) ∧
    (jsTrim ph.response ≠ "" → (jsTrim ph.response).length < 100 →
      validatePhase s =
        { valid := false,
          error :=
            some "Response seems too short. Please check the AI output." }) ∧
    (100 ≤ (jsTrim ph.response).length →
      validatePhase s = { valid := true, error := none }) := by
  unfold validatePhase
  rw [hget]
  refine ⟨?_, ?_, ?_⟩
  · intro h
    simp [h]
  · intro h1 h2
    have hne : ¬(ph.response = "" ∨ jsTrim ph.response = "") := by
      rintro (h | h)
      · exact h1 (by rw [h]; decide)
      · exact h1 h
    simp [hne, h2]
  · intro h
    have h1 : jsTrim ph.response ≠ "" := by
      intro he
      rw [he] at h
      simp at h
    have hne : ¬(ph.response = "" ∨ jsTrim ph.response = "") := by
      rintro (hr | hr)
      · exact h1 (by rw [hr]; decide)
      · exact h1 hr
    have h2 : ¬((jsTrim ph.response).length < 100) := by omega
    simp [hne, h2]

set_option maxRecDepth 4096 in
/-- C5 counterexample: a 150-character response consisting entirely of
spaces is rejected (as missing), so not every 150-character response is
accepted. -/
theorem c5_counterexample :
    (String.mk (List.replicate 150 ' ')).length = 150 ∧
    (validatePhase (updatePhaseResponse
        (createSession "s1" 0 "Title" "2024-01-01" "transcript" [])
        (String.mk (List.replicate 150 ' ')))).valid = false := by
  decide

/-- Witness for C5 (amended) at a fresh session, whose empty response is
rejected with the missing-response error. -/
theorem c5_validatePhase_cases_witness :
    validatePhase (createSession "s1" 0 "Title" "2024-01-01" "transcript" [])
      = { valid := false, error := some "Please paste the AI response" } :=
  (c5_validatePhase_cases
    (createSession "s1" 0 "Title" "2024-01-01" "transcript" [])
    ⟨1, "Extract", "Claude Sonnet 4",
      "Extract locations and plot threads from transcript", "", "", false⟩
    (by decide)).1 (by decide)

/-- C6: on a 3-phase session with `k` completed phases, `getProgress`
equals the standard rounding of `100k/3`; in particular 0, 33, 67, 100
for k = 0, 1, 2, 3. -/
theorem c6_getProgress (s : Session) (k : Nat)
    (h3 : s.phases.length = 3)
    (hk : (s.phases.filter (fun p => p.completed)).length = k) :
    getProgress s = rround (k * 100) 3 ∧
    (k = 0 → getProgress s = 0) ∧
    (k = 1 → getProgress s = 33) ∧
    (k = 2 → getProgress s = 67) ∧
    (k = 3 → getProgress s = 100) := by
  have hg0 : getProgress s =
      rround ((s.phases.filter (fun p => p.completed)).length * 100)
        PHASES.length := rfl
  have hg : getProgress s = rround (k * 100) 3 := by
    rw [hg0, hk]
    rfl
  refine ⟨hg, ?_, ?_, ?_, ?_⟩ <;> intro hkk <;> rw [hg, hkk] <;> rfl

/-- Witness for C6: after one guarded advance, one phase is completed and
progress reads 33. -/
theorem c6_getProgress_witness :
    getProgress (exec (createSession "s1" 0 "Title" "2024-01-01" "tr" [])
      [Op.advance]) = 33 :=
  (c6_getProgress
    (exec (createSession "s1" 0 "Title" "2024-01-01" "tr" []) [Op.advance])
    1 (by decide) (by decide)).2.2.1 rfl

/-- C10: with a non-empty tag filter, a session is kept only if its
`tags` field is present and contains every filter tag (a session with an
absent `tags` field is never kept); with an empty query and empty tag
filter, every session is kept. -/
theorem c10_filterSessions (sessions : List Session) (query : String)
    (filterTags : List String) (s : Session)
    (hne : filterTags ≠ [])
    (hmem : s ∈ filterSessions sessions query filterTags) :
    (∃ ts, s.tags = some ts ∧ ∀ tag ∈ filterTags, tag ∈ ts) ∧
    (∀ ss : List Session, filterSessions ss "" [] = ss) := by
  constructor
  · have hp := (List.mem_filter.mp hmem).2
    simp only [Bool.and_eq_true, Bool.or_eq_true, decide_eq_true_eq] at hp
    have hlen : ¬filterTags.length = 0 := by
      intro h0
      exact hne (List.length_eq_zero.mp h0)
    rcases hp.2 with h0 | hall
    · exact absurd h0 hlen
    · rw [List.all_eq_true] at hall
      match hts : s.tags with
      | none =>
        obtain ⟨t0, ht0⟩ := List.exists_mem_of_ne_nil filterTags hne
        have := hall t0 ht0
        rw [hts] at this
        simp at this
      | some ts =>
        refine ⟨ts, rfl, fun tag htag => ?_⟩
        have := hall tag htag
        rw [hts] at this
        simpa using this
  · intro ss
    apply List.filter_eq_self.mpr
    intro a _
    simp

/-- Witness for C10 at a concrete session list: the tagged session is
kept and satisfies the tag condition; the untagged one is excluded by
the theorem's necessary condition. -/
theorem c10_filterSessions_witness :
    (∃ ts,
      (⟨"id1", "T1", "2024-01-01", "tr", some ["combat"], 0, 0, 1, [], [],
        []⟩ : Session).tags = some ts ∧ ∀ tag ∈ ["combat"], tag ∈ ts) ∧
    (∀ ss : List Session, filterSessions ss "" [] = ss) :=
  c10_filterSessions
    [⟨"id1", "T1", "2024-01-01", "tr", some ["combat"], 0, 0, 1, [], [], []⟩,
     ⟨"id2", "T2", "2024-01-02", "tr", none, 0, 0, 1, [], [], []⟩]
    "" ["combat"]
    ⟨"id1", "T1", "2024-01-01", "tr", some ["combat"], 0, 0, 1, [], [], []⟩
    (by decide) (by decide)

/-- A list is a prefix of itself followed by anything. -/
theorem isPrefixOf_append_self (l suf : List Char) :
    l.isPrefixOf (l ++ suf) = true := by
  simp [ List.isPrefixOf_iff_prefix]

/-- A prefix occurs as a substring. -/
theorem containsChars_of_isPrefixOf {n l : List Char}
    (h : n.isPrefixOf l = true) : containsChars n l = true := by
  cases l with
  | nil =>
    cases n with
    | nil => rfl
    | cons a t => simp [List.isPrefixOf] at h
  | cons c rest => simp [containsChars, h]

/-- Substring occurrence survives prepending material. -/
theorem containsChars_append_left (pre : List Char) {n m : List Char}
    (h : containsChars n m = true) : containsChars n (pre ++ m) = true := by
  induction pre with
  | nil => simpa using h
  | cons c t ih =>
    rw [List.cons_append]
    unfold containsChars
    rw [Bool.or_eq_true]
    exact Or.inr ih

/-- Dispatch equation for `generatePrompt` when the current phase record
is known. -/
theorem generatePrompt_eq (s : Session) (ph : PhaseRecord)
    (hget : s.phases.get? (s.currentPhase - 1) = some ph) :
    generatePrompt s =
      if ph.number = 1 then generatePhase1Prompt s
      else if ph.number = 2 then generatePhase2Prompt s
      else if ph.number = 3 then generatePhase3Prompt s
      else "" := by
  unfold generatePrompt
  rw [hget]

set_option maxRecDepth 8192 in
/-- C7: `generatePrompt` is a pure function of the session; at phase 1
(current phase record numbered 1) the prompt contains the session title,
the transcript verbatim, and the literal section markers for locations
and plot threads; at phase 2 it contains the phase-1 response verbatim;
at phase 3 it contains the phase-2 response verbatim. -/
theorem c7_generatePrompt (s : Session) (ph : PhaseRecord)
    (hget : s.phases.get? (s.currentPhase - 1) = some ph) :
    (s.currentPhase = 1 → ph.number = 1 →
      strContains (generatePrompt s) s.title = true ∧
      strContains (generatePrompt s) s.transcript = true ∧
      strContains (generatePrompt s) "### LOCATIONS" = true ∧
      strContains (generatePrompt s) "### PLOT THREADS" = true) ∧
    (s.currentPhase = 2 → ph.number = 2 →
      strContains (generatePrompt s) (phaseResponse s 0) = true) ∧
    (s.currentPhase = 3 → ph.number = 3 →
      strContains (generatePrompt s) (phaseResponse s 1) = true) := by
  refine ⟨?_, ?_, ?_⟩
  · intro _ hnum
    have hgp : generatePrompt s = generatePhase1Prompt s := by
      rw [generatePrompt_eq s ph hget, hnum]
      simp
    rw [hgp]
    refine ⟨?_, ?_, ?_, ?_⟩
    · unfold strContains generatePhase1Prompt
      simp only [String.data_append, List.append_assoc]
      exact containsChars_append_left _
        (containsChars_of_isPrefixOf (isPrefixOf_append_self _ _))
    · unfold strContains generatePhase1Prompt
      simp only [String.data_append, List.append_assoc]
      exact containsChars_append_left _ (containsChars_append_left _
        (containsChars_append_left _ (containsChars_append_left _
          (containsChars_append_left _
            (containsChars_of_isPrefixOf (isPrefixOf_append_self _ _))))))
    · unfold strContains generatePhase1Prompt
      simp only [String.data_append, List.append_assoc]
      exact containsChars_append_left _ (containsChars_append_left _
        (containsChars_append_left _ (containsChars_append_left _
          (containsChars_append_left _ (containsChars_append_left _
            (containsChars_append_left _
              (containsChars_of_isPrefixOf (isPrefixOf_append_self _ _))))))))
    · unfold strContains generatePhase1Prompt
      simp only [String.data_append, List.append_assoc]
      exact containsChars_append_left _ (containsChars_append_left _
        (containsChars_append_left _ (containsChars_append_left _
          (containsChars_append_left _ (containsChars_append_left _
            (containsChars_append_left _ (containsChars_append_left _
              (containsChars_append_left _
                (containsChars_of_isPrefixOf
                  (isPrefixOf_append_self _ _))))))))))
  · intro _ hnum
    have hgp : generatePrompt s = generatePhase2Prompt s := by
      rw [generatePrompt_eq s ph hget, hnum]
      simp
    rw [hgp]
    unfold strContains generatePhase2Prompt
    simp only [String.data_append, List.append_assoc]
    exact containsChars_append_left _ (containsChars_append_left _
      (containsChars_append_left _ (containsChars_append_left _
        (containsChars_append_left _
          (containsChars_of_isPrefixOf (isPrefixOf_append_self _ _))))))
  · intro _ hnum
    have hgp : generatePrompt s = generatePhase3Prompt s := by
      rw [generatePrompt_eq s ph hget, hnum]
      simp
    rw [hgp]
    unfold strContains generatePhase3Prompt
    simp only [String.data_append, List.append_assoc]
    exact containsChars_append_left _ (containsChars_append_left _
      (containsChars_append_left _
        (containsChars_of_isPrefixOf (isPrefixOf_append_self _ _))))

/-- Witness for C7 at a freshly created session (phase 1). -/
theorem c7_generatePrompt_witness :
    strContains
      (generatePrompt (createSession "s1" 0 "Title" "2024-01-01"
        "transcript" [])) "Title" = true ∧
    strContains
      (generatePrompt (createSession "s1" 0 "Title" "2024-01-01"
        "transcript" [])) "transcript" = true ∧
    strContains
      (generatePrompt (createSession "s1" 0 "Title" "2024-01-01"
        "transcript" [])) "### LOCATIONS" = true ∧
    strContains
      (generatePrompt (createSession "s1" 0 "Title" "2024-01-01"
        "transcript" [])) "### PLOT THREADS" = true :=
  (c7_generatePrompt
    (createSession "s1" 0 "Title" "2024-01-01" "transcript" [])
    ⟨1, "Extract", "Claude Sonnet 4",
      "Extract locations and plot threads from transcript", "", "", false⟩
    (by decide)).1 rfl rfl

/-- `Char.ofNat` round-trips through `toNat` below the surrogate range. -/
theorem char_toNat_ofNat {m : Nat} (h : m < 55296) :
    (Char.ofNat m).toNat = m := by
  have hv : Nat.isValidChar m := Or.inl h
  rw [Char.ofNat, dif_pos hv]
  simp [Char.ofNatAux, Char.toNat, UInt32.toNat]

/-- Code point of the lowercased image of an uppercase letter. -/
theorem jsCharToLower_toNat_of_upper {c : Char}
    (h : 65 ≤ c.toNat ∧ c.toNat ≤ 90) :
    (jsCharToLower c).toNat = c.toNat + 32 := by
  unfold jsCharToLower
  rw [if_pos h]
  exact char_toNat_ofNat (by omega)

/-- Lowercasing a character twice is the same as once. -/
theorem jsCharToLower_idem (c : Char) :
    jsCharToLower (jsCharToLower c) = jsCharToLower c := by
  by_cases h : 65 ≤ c.toNat ∧ c.toNat ≤ 90
  · have ht := jsCharToLower_toNat_of_upper h
    have h2 : ¬(65 ≤ (jsCharToLower c).toNat ∧ (jsCharToLower c).toNat ≤ 90) :=
      by rw [ht]; omega
    show (if 65 ≤ (jsCharToLower c).toNat ∧ (jsCharToLower c).toNat ≤ 90 then
        Char.ofNat ((jsCharToLower c).toNat + 32) else jsCharToLower c) =
      jsCharToLower c
    rw [if_neg h2]
  · have h1 : jsCharToLower c = c := by
      unfold jsCharToLower
      rw [if_neg h]
    rw [h1]
    exact h1

/-- Lowercasing preserves whether a character is whitespace. -/
theorem isWsChar_jsCharToLower (c : Char) :
    isWsChar (jsCharToLower c) = isWsChar c := by
  by_cases h : 65 ≤ c.toNat ∧ c.toNat ≤ 90
  · have ht := jsCharToLower_toNat_of_upper h
    unfold isWsChar
    rw [ht, Bool.eq_iff_iff]
    simp only [Bool.or_eq_true, decide_eq_true_eq]
    omega
  · have h1 : jsCharToLower c = c := by
      unfold jsCharToLower
      rw [if_neg h]
    rw [h1]

/-- Dropping leading whitespace twice is the same as once. -/
theorem dropWhile_dropWhile (p : Char → Bool) (l : List Char) :
    (l.dropWhile p).dropWhile p = l.dropWhile p := by
  induction l with
  | nil => rfl
  | cons c t ih =>
    by_cases h : p c = true
    · simp [List.dropWhile_cons, h, ih]
    · simp [List.dropWhile_cons, h]

/-- A prefix of a list that starts with a non-`p` element (or is empty in
the sense that `dropWhile` fixes it) is itself fixed by `dropWhile`. -/
theorem dropWhile_eq_self_of_front {p : Char → Bool} {l B : List Char}
    (hl : l.dropWhile p = l) (hB : B <+: l) : B.dropWhile p = B := by
  cases B with
  | nil => rfl
  | cons b t =>
    cases l with
    | nil =>
      rcases hB with ⟨r, hr⟩
      simp at hr
    | cons a m =>
      have hb : b = a := by
        rcases hB with ⟨r, hr⟩
        rw [List.cons_append] at hr
        exact (List.cons.injEq b (t ++ r) a m ▸ hr).1
      have hpa : p a = false := by
        by_contra hpa'
        have hpa2 : p a = true := by
          cases hval : p a
          · exact absurd hval hpa'
          · rfl
        have h2 : (a :: m).dropWhile p = m.dropWhile p := by
          simp [List.dropWhile_cons, hpa2]
        rw [h2] at hl
        have hlen := congrArg List.length hl
        have hle : (m.dropWhile p).length ≤ m.length :=
          (List.dropWhile_sublist p).length_le
        simp at hlen
        omega
      rw [hb]
      simp [List.dropWhile_cons, hpa]

/-- Trimming is idempotent. -/
theorem trimChars_trimChars (l : List Char) :
    trimChars (trimChars l) = trimChars l := by
  have hA : (l.dropWhile isWsChar).dropWhile isWsChar = l.dropWhile isWsChar :=
    dropWhile_dropWhile _ l
  have hsuf :
      (l.dropWhile isWsChar).reverse.dropWhile isWsChar <:+
        (l.dropWhile isWsChar).reverse :=
    List.dropWhile_suffix _
  have hpre :
      ((l.dropWhile isWsChar).reverse.dropWhile isWsChar).reverse <+:
        l.dropWhile isWsChar := by
    have h := List.reverse_prefix.mpr hsuf
    rwa [List.reverse_reverse] at h
  have hfront : (trimChars l).dropWhile isWsChar = trimChars l :=
    dropWhile_eq_self_of_front hA hpre
  show ((trimChars l |>.dropWhile isWsChar).reverse.dropWhile
    isWsChar).reverse = trimChars l
  rw [hfront,
    show (trimChars l).reverse =
      (l.dropWhile isWsChar).reverse.dropWhile isWsChar from
      List.reverse_reverse _,
    dropWhile_dropWhile]
  rfl

/-- Trimming commutes with lowercasing. -/
theorem trimChars_map_lower (l : List Char) :
    trimChars (l.map jsCharToLower) = (trimChars l).map jsCharToLower := by
  have hcomp : (isWsChar ∘ jsCharToLower) = isWsChar :=
    funext isWsChar_jsCharToLower
  have hdw : ∀ m : List Char,
      (m.map jsCharToLower).dropWhile isWsChar =
        (m.dropWhile isWsChar).map jsCharToLower := by
    intro m
    rw [List.dropWhile_map, hcomp]
  unfold trimChars
  rw [hdw, ← List.map_reverse, hdw, ← List.map_reverse]

/-- Lowercasing a string twice is the same as once. -/
theorem toLowerCase_idem (s : String) :
    toLowerCase (toLowerCase s) = toLowerCase s := by
  unfold toLowerCase
  apply congrArg String.mk
  show (s.data.map jsCharToLower).map jsCharToLower = s.data.map jsCharToLower
  rw [List.map_map]
  exact List.map_congr_left (fun c _ => jsCharToLower_idem c)

/-- C8 counterexample: `parseTags` does not deduplicate — the input
`"a,a"` yields the tag `"a"` twice. -/
theorem c8_counterexample :
    parseTags (some "a,a") = ["a", "a"] ∧
    ¬ (parseTags (some "a,a")).Nodup := by
  constructor
  · decide
  · decide

/-- C8 (amended): every tag returned by `parseTags` is non-empty,
whitespace-trimmed and lowercase; duplicates, however, are preserved. -/
theorem c8_parseTags_normalized (x : Option String) (t : String)
    (ht : t ∈ parseTags x) :
    t.length > 0 ∧ jsTrim t = t ∧ toLowerCase t = t := by
  cases x with
  | none => simp [parseTags] at ht
  | some s =>
    simp only [parseTags] at ht
    by_cases hs : s = ""
    · simp [hs] at ht
    · rw [if_neg hs] at ht
      obtain ⟨ht', hlen⟩ := List.mem_filter.mp ht
      obtain ⟨u, _, hu⟩ := List.mem_map.mp ht'
      refine ⟨by simpa using hlen, ?_, ?_⟩
      · rw [← hu]
        show jsTrim (toLowerCase (jsTrim ⟨u⟩)) = toLowerCase (jsTrim ⟨u⟩)
        unfold jsTrim toLowerCase
        apply congrArg String.mk
        show trimChars ((trimChars u).map jsCharToLower) =
          (trimChars u).map jsCharToLower
        rw [trimChars_map_lower, trimChars_trimChars]
      · rw [← hu]
        exact toLowerCase_idem _

/-- Witness for C8 (amended) on a concrete mixed-case, padded input. -/
theorem c8_parseTags_normalized_witness :
    ("combat" : String).length > 0 ∧ jsTrim "combat" = "combat" ∧
      toLowerCase "combat" = "combat" :=
  c8_parseTags_normalized (some " Combat , ROLEPLAY") "combat" (by decide)

/-- Every character printed by the decimal printer is a decimal digit. -/
theorem natToCharsAux_all_digits :
    ∀ (fuel n : Nat), ∀ c ∈ natToCharsAux fuel n, isDigitChar c = true := by
  intro fuel
  induction fuel with
  | zero =>
    intro n c hc
    simp [natToCharsAux] at hc
  | succ f ih =>
    intro n c hc
    unfold natToCharsAux at hc
    by_cases h : n < 10
    · rw [if_pos h] at hc
      simp at hc
      rw [hc]
      unfold digitChar isDigitChar
      rw [char_toNat_ofNat (by omega), Bool.and_eq_true,
        decide_eq_true_eq, decide_eq_true_eq]
      omega
    · rw [if_neg h] at hc
      rcases List.mem_append.mp hc with h1 | h1
      · exact ih _ c h1
      · simp at h1
        rw [h1]
        have hm : n % 10 < 10 := Nat.mod_lt _ (by omega)
        unfold digitChar isDigitChar
        rw [char_toNat_ofNat (by omega), Bool.and_eq_true,
          decide_eq_true_eq, decide_eq_true_eq]
        omega

/-- The decimal printer emits at least one digit when given fuel. -/
theorem natToCharsAux_ne_nil (f n : Nat) : natToCharsAux (f + 1) n ≠ [] := by
  unfold natToCharsAux
  by_cases h : n < 10
  · simp [h]
  · simp [h]

/-- Every base-36 digit character is in the class `[a-z0-9]`. -/
theorem base36Char_isLower36 : ∀ d : Fin 36, isLower36 (base36Char d) = true :=
  by decide

/-- `takeWhile` stops exactly at the first failing element after an
all-satisfying block. -/
theorem takeWhile_append_not {p : Char → Bool} (l : List Char)
    (hl : ∀ c ∈ l, p c = true) {c : Char} (hc : p c = false)
    (r : List Char) : (l ++ c :: r).takeWhile p = l := by
  induction l with
  | nil => simp [List.takeWhile_cons, hc]
  | cons a t ih =>
    have ha : p a = true := hl a (by simp)
    simp only [List.cons_append, List.takeWhile_cons, ha, if_true]
    rw [ih (fun x hx => hl x (by simp [hx]))]

set_option maxRecDepth 4096 in
/-- C9 counterexample: when `Math.random()` returns 0 its base-36 string
is `"0"`, `substr(2, 9)` of it is empty, and the generated id ends in a
bare hyphen, failing the documented format `/^\d+-[a-z0-9]+$/`. -/
theorem c9_counterexample :
    generateId 1700000000000 [] = "1700000000000-" ∧
    matchesIdFormat (generateId 1700000000000 []) = false := by
  constructor
  · decide
  · decide

/-- C9 (amended): for every timestamp and every value of the random
source that prints at least one base-36 fractional digit (every value
other than 0), the generated id matches `/^\d+-[a-z0-9]+$/`. -/
theorem c9_generateId_format (now : Nat) (digits : List (Fin 36))
    (hne : digits ≠ []) :
    matchesIdFormat (generateId now digits) = true := by
  have hrd : (randToString36 digits).data =
      '0' :: '.' :: digits.map base36Char := by
    unfold randToString36
    rw [if_neg (by simpa using hne)]
    rw [String.data_append]
    rfl
  have hdata : (generateId now digits).data =
      natToChars now ++ '-' :: (digits.map base36Char).take 9 := by
    unfold generateId jsSubstr
    rw [String.data_append, String.data_append]
    show natToChars now ++ ['-'] ++ ((randToString36 digits).data.drop 2).take 9
      = _
    rw [hrd]
    simp
  have htw : ((generateId now digits).data.takeWhile isDigitChar) =
      natToChars now := by
    rw [hdata]
    exact takeWhile_append_not _ (natToCharsAux_all_digits _ _) (by decide) _
  have hmapne : (digits.map base36Char).take 9 ≠ [] := by
    intro h0
    rcases List.take_eq_nil_iff.mp h0 with h9 | hmap
    · omega
    · exact hne (List.map_eq_nil_iff.mp hmap)
  simp only [matchesIdFormat]
  rw [htw, hdata, List.drop_left]
  show (!(natToChars now).isEmpty &&
    (!((digits.map base36Char).take 9).isEmpty &&
      ((digits.map base36Char).take 9).all isLower36)) = true
  rw [Bool.and_eq_true, Bool.and_eq_true]
  refine ⟨?_, ?_, ?_⟩
  · simpa using natToCharsAux_ne_nil now now
  · simpa using hmapne
  · rw [List.all_eq_true]
    intro c hcmem
    obtain ⟨d, _, hd⟩ :=
      List.mem_map.mp (List.take_subset 9 _ hcmem)
    rw [← hd]
    exact base36Char_isLower36 d

/-- Witness for C9 (amended) at a concrete timestamp and random draw. -/
theorem c9_generateId_format_witness :
    matchesIdFormat
      (generateId 1700000000000 [(10 : Fin 36), (0 : Fin 36), (25 : Fin 36)])
      = true :=
  c9_generateId_format 1700000000000 [10, 0, 25] (by decide)

end GameWiki
